import Mathlib

/-!
Shallow embedding of the authentication fallback subsystem of the
leavewell-flow repository.

The `MockAuthService` class (mockAuth module) is modelled as pure
functions over an explicit `Store` state: `localStorage` holds the user
list under one key and the active session under another, so the store is
a list of users plus an optional session.  Time (`Date.now()`), the
random id suffix (`Math.random()...`) and the ISO timestamp
(`new Date().toISOString()`) are impure inputs of the original code and
are passed in explicitly.  The profile-fallback logic of the
`AuthProvider` component is modelled as a pure function of the fetch
outcome and the session user.
-/

/-- A stored user record (`MockUser` in the source).  The source declares
`role` with the union type `'employee' | 'manager' | 'admin'`, but
`signUp` writes `(userData.role as any) || 'employee'` into it, so any
non-empty string can actually be stored; we therefore model `role` as a
plain `String`. -/
structure MockUser where
  id : String
  email : String
  first_name : String
  last_name : String
  role : String
  created_at : String
deriving DecidableEq, Repr

/-- A session record (`MockSession` in the source); `expires_at` is a
millisecond timestamp (`Date.now()` scale), modelled as `Nat`. -/
structure MockSession where
  user : MockUser
  access_token : String
  expires_at : Nat
deriving DecidableEq, Repr

/-- The credential store: the contents of `localStorage` under the two
fixed keys `mock_users` (user list) and `mock_session` (single session
slot, absent when the key is removed). -/
structure Store where
  users : List MockUser
  session : Option MockSession
deriving DecidableEq, Repr

/-- The structured error values returned by the service
(`user_already_exists`, `invalid_credentials`). -/
inductive AuthError where
  | UserAlreadyExists
  | InvalidCredentials
deriving DecidableEq, Repr

/-- The `userData` argument of `signUp`; `role?` is optional in the
source. -/
structure SignUpData where
  first_name : String
  last_name : String
  role : Option String
deriving DecidableEq, Repr

/-- JavaScript `x || d` on an optional string: `undefined` and the empty
string are falsy, every other string is kept. -/
def jsOr (o : Option String) (d : String) : String :=
  match o with
  | none => d
  | some s => if s = "" then d else s

/-- The id built by `signUp`:
`mock_${Date.now()}_${Math.random().toString(36).substring(2)}`. -/
def mkUserId (now : Nat) (rand : String) : String :=
  "mock_" ++ toString now ++ "_" ++ rand

/-- `MockAuthService.signUp`.  `now` is `Date.now()`, `rand` the random
suffix, `nowIso` the `created_at` timestamp.  Returns the result value
together with the store after the call. -/
def signUp (now : Nat) (rand nowIso : String) (email _password : String)
    (userData : SignUpData) (st : Store) : Except AuthError MockUser × Store :=
  if (st.users.find? (fun u => u.email = email)).isSome then
    (Except.error AuthError.UserAlreadyExists, st)
  else
    let newUser : MockUser :=
      { id := mkUserId now rand
        email := email
        first_name := userData.first_name
        last_name := userData.last_name
        role := jsOr userData.role "employee"
        created_at := nowIso }
    (Except.ok newUser, { st with users := st.users ++ [newUser] })

/-- `MockAuthService.signIn`.  The `_password` argument is never read,
exactly as in the source. -/
def signIn (now : Nat) (email _password : String) (st : Store) :
    Except AuthError (MockUser × MockSession) × Store :=
  match st.users.find? (fun u => u.email = email) with
  | none => (Except.error AuthError.InvalidCredentials, st)
  | some user =>
    let session : MockSession :=
      { user := user
        access_token := "mock_token_" ++ toString now
        expires_at := now + 24 * 60 * 60 * 1000 }
    (Except.ok (user, session), { st with session := some session })

/-- `MockAuthService.signOut`: clears the session slot. -/
def signOut (st : Store) : Store :=
  { st with session := none }

/-- `MockAuthService.getSession`: reads the session slot; if present and
`session.expires_at < Date.now()`, removes it and returns `null`. -/
def getSession (now : Nat) (st : Store) : Option MockSession × Store :=
  match st.session with
  | none => (none, st)
  | some s =>
    if s.expires_at < now then (none, { st with session := none })
    else (some s, st)

/-- A leave-policy reference entry. -/
structure LeavePolicy where
  annual_quota : Nat
  max_consecutive_days : Nat
  requires_approval : Bool
deriving DecidableEq, Repr

/-- The property names every plain JavaScript object literal inherits
from `Object.prototype`.  Accessing any of them on the `policies`
literal yields a truthy value — a built-in function, or the prototype
object itself for `__proto__` — so the `||` in the source never
replaces it with the `other` entry. -/
def objectPrototypeMembers : List String :=
  ["constructor", "hasOwnProperty", "isPrototypeOf", "propertyIsEnumerable",
   "toLocaleString", "toString", "valueOf", "__proto__",
   "__defineGetter__", "__defineSetter__", "__lookupGetter__",
   "__lookupSetter__"]

/-- What `policies[leave_type] || policies.other` can actually
evaluate to: one of the literal's own policy entries, or a truthy
member inherited from `Object.prototype` (tagged by its property
name), which is not a policy record at all. -/
inductive PolicyLookup where
  | policy (p : LeavePolicy)
  | inherited (name : String)
deriving DecidableEq, Repr

/-- `MockAuthService.getLeavePolicy`: JavaScript member lookup on the
static `policies` object literal.  Own keys (the five leave types)
return their table entry; a key naming an `Object.prototype` member
finds that truthy inherited value, which the `||` keeps; every other
key yields `undefined`, so the `||` falls back to `policies.other`. -/
def getLeavePolicy (leave_type : String) : PolicyLookup :=
  if leave_type = "sick" then PolicyLookup.policy ⟨10, 5, false⟩
  else if leave_type = "vacation" then PolicyLookup.policy ⟨20, 14, true⟩
  else if leave_type = "family_emergency" then PolicyLookup.policy ⟨5, 3, true⟩
  else if leave_type = "personal" then PolicyLookup.policy ⟨5, 2, true⟩
  else if leave_type = "other" then PolicyLookup.policy ⟨0, 1, true⟩
  else if leave_type ∈ objectPrototypeMembers then PolicyLookup.inherited leave_type
  else PolicyLookup.policy ⟨0, 1, true⟩

/-- The impure inputs consumed by one `signUp` call inside
`createDemoUsers`. -/
structure Env where
  now : Nat
  rand : String
  nowIso : String

/-- `MockAuthService.createDemoUsers`, with its three-element loop
unrolled.  `existingUsers` is read once before the loop (as in the
source); each non-skipped iteration calls `signUp` on the store as left
by the previous iteration.  `envs i` supplies the impure inputs of the
i-th potential `signUp` call. -/
def createDemoUsers (envs : Nat → Env) (st : Store) : Store :=
  let existingUsers := st.users
  let step := fun (acc : Store) (i : Nat) (email fn ln role : String) =>
    if (existingUsers.find? (fun u => u.email = email)).isSome then acc
    else (signUp (envs i).now (envs i).rand (envs i).nowIso email "demo123"
      ⟨fn, ln, some role⟩ acc).2
  let s1 := step st 0 "admin@demo.com" "Admin" "User" "admin"
  let s2 := step s1 1 "manager@demo.com" "Manager" "User" "manager"
  step s2 2 "employee@demo.com" "Employee" "User" "employee"

/-- The profile record produced by the `AuthProvider` component. -/
structure Profile where
  id : String
  email : String
  first_name : String
  last_name : String
  role : String
deriving DecidableEq, Repr

/-- The fields of a primary-provider session user that the profile
fallback reads: `id`, the optional `email`, and the three optional
`user_metadata` fields. -/
structure SessionUser where
  id : String
  email : Option String
  meta_first_name : Option String
  meta_last_name : Option String
  meta_role : Option String
deriving DecidableEq, Repr

/-- The profile the `AuthProvider` synthesizes when the remote profile
fetch fails: `id` from the session user, `email || ''`, and the
metadata fields with `|| 'User'`, `|| 'Name'`, `|| 'employee'`. -/
def fallbackProfile (u : SessionUser) : Profile :=
  { id := u.id
    email := jsOr u.email ""
    first_name := jsOr u.meta_first_name "User"
    last_name := jsOr u.meta_last_name "Name"
    role := jsOr u.meta_role "employee" }

/-- The `AuthProvider` profile-resolution step for an authenticated
primary-provider user: the fetched row is used verbatim on success
(`setProfile(profileData)`), and on a returned error or a thrown one the
synthesized fallback profile is used. -/
def resolveProfile (fetched : Except String Profile) (u : SessionUser) : Profile :=
  match fetched with
  | Except.ok p => p
  | Except.error _ => fallbackProfile u

/-- An example session used as a concrete input in boundary theorems. -/
def s0 : MockSession :=
  { user := { id := "id0", email := "a@x.com", first_name := "A",
              last_name := "B", role := "employee", created_at := "t0" }
    access_token := "tok0"
    expires_at := 1000 }

/-- Claim C1, counterexample: at a current time exactly equal to the
stored expiry instant (1000), the current time is not strictly before
the expiry, so the claim says the session is expired and must be
deleted and reported absent; `getSession` nevertheless returns the
session unchanged, because the code only expires when
`expires_at < Date.now()`. -/
theorem getSession_boundary_counterexample :
    ¬ (1000 < s0.expires_at) ∧
      getSession 1000 { users := [], session := some s0 } =
        (some s0, { users := [], session := some s0 }) := by
  constructor
  · decide
  · rfl

/-- Claim C1 (amended): `getSession` treats a stored session as valid if
and only if the current time is less than or equal to (not strictly
before) its expiry instant: when the slot is empty it returns absent and
leaves the store unchanged; when a session is present and
`now ≤ expires_at` it returns the session with the store unchanged; and
when `expires_at < now` it clears the session slot (leaving the user
list untouched) and returns absent. -/
theorem getSession_lazy_expiry (now : Nat) (st : Store) :
    (st.session = none → getSession now st = (none, st)) ∧
    (∀ s, st.session = some s →
      (now ≤ s.expires_at → getSession now st = (some s, st)) ∧
      (s.expires_at < now →
        getSession now st = (none, { users := st.users, session := none }))) := by
  refine ⟨fun h => by simp [getSession, h], fun s hs => ⟨fun hle => ?_, fun hlt => ?_⟩⟩
  · simp [getSession, hs, Nat.not_lt.mpr hle]
  · simp [getSession, hs, hlt]

/-- Witness for `getSession_lazy_expiry` at a concrete expired input. -/
theorem getSession_lazy_expiry_witness :
    getSession 1001 { users := [], session := some s0 } =
      (none, { users := [], session := none }) :=
  ((getSession_lazy_expiry 1001 { users := [], session := some s0 }).2 s0 rfl).2
    (by decide)

/-- Claim C2, counterexample: a successful sign-up requesting the
unrecognized role value "superuser" returns a user whose role is
"superuser", not "employee" — the code keeps any non-empty requested
role string without validating it. -/
theorem signUp_unrecognized_role_counterexample :
    (signUp 0 "r" "t" "a@x.com" "pw" ⟨"A", "B", some "superuser"⟩
        { users := [], session := none }).1.map MockUser.role =
      Except.ok "superuser" ∧ "superuser" ≠ "employee" := by
  constructor
  · rfl
  · decide

/-- Claim C2 (amended): for every successful `signUp`, the returned
role equals the requested role whenever a non-empty role string was
supplied — including unrecognized values, which are kept unvalidated —
and equals "employee" exactly when the role was absent or the empty
string. -/
theorem signUp_role_default (now : Nat) (rand nowIso email pw : String)
    (d : SignUpData) (st : Store) (u : MockUser)
    (h : (signUp now rand nowIso email pw d st).1 = Except.ok u) :
    ((d.role = none ∨ d.role = some "") → u.role = "employee") ∧
    (∀ r, d.role = some r → r ≠ "" → u.role = r) := by
  by_cases hdup : (st.users.find? (fun v => v.email = email)).isSome
  · simp [signUp, hdup] at h
  · simp only [signUp, hdup, if_false, Bool.false_eq_true] at h
    injection h with hu
    subst hu
    refine ⟨fun hr => ?_, fun r hr hne => ?_⟩
    · rcases hr with hr | hr <;> simp [jsOr, hr]
    · simp [jsOr, hr, hne]

/-- Witness for `signUp_role_default`: a concrete sign-up with no role
supplied yields role "employee". -/
theorem signUp_role_default_witness :
    let res := signUp 0 "r" "t" "b@x.com" "pw" ⟨"A", "B", none⟩
      { users := [], session := none }
    ∀ u, res.1 = Except.ok u → u.role = "employee" :=
  fun u h =>
    (signUp_role_default 0 "r" "t" "b@x.com" "pw" ⟨"A", "B", none⟩
      { users := [], session := none } u h).1 (Or.inl rfl)

/-- Claim C3: a sign-up whose email already belongs to a stored user
fails with the `UserAlreadyExists` error and leaves the whole store —
in particular the user list, length and contents — exactly as it was. -/
theorem signUp_duplicate_email (now : Nat) (rand nowIso email pw : String)
    (d : SignUpData) (st : Store)
    (h : ∃ u ∈ st.users, u.email = email) :
    signUp now rand nowIso email pw d st =
      (Except.error AuthError.UserAlreadyExists, st) := by
  obtain ⟨u, hu, he⟩ := h
  have hfind : (st.users.find? (fun v => v.email = email)).isSome := by
    rw [List.find?_isSome]
    exact ⟨u, hu, by simp [he]⟩
  simp [signUp, hfind]

/-- Witness for `signUp_duplicate_email` at a concrete store already
holding the email. -/
theorem signUp_duplicate_email_witness :
    signUp 7 "r2" "t2" "a@x.com" "other_pw" ⟨"C", "D", some "admin"⟩
        { users := [s0.user], session := none } =
      (Except.error AuthError.UserAlreadyExists,
        { users := [s0.user], session := none }) :=
  signUp_duplicate_email 7 "r2" "t2" "a@x.com" "other_pw"
    ⟨"C", "D", some "admin"⟩ { users := [s0.user], session := none }
    ⟨s0.user, by simp, by decide⟩

/-- Claim C4: `signIn` fails, with the `InvalidCredentials` error, if
and only if no stored user has the given email; when some stored user
has the email it succeeds; and the password argument never influences
the result — any two passwords give identical outcomes. -/
theorem signIn_email_only (now : Nat) (email pw pw2 : String) (st : Store) :
    ((signIn now email pw st).1 = Except.error AuthError.InvalidCredentials ↔
      ∀ u ∈ st.users, u.email ≠ email) ∧
    ((∃ u ∈ st.users, u.email = email) →
      ∃ r, (signIn now email pw st).1 = Except.ok r) ∧
    signIn now email pw st = signIn now email pw2 st := by
  refine ⟨?_, ?_, rfl⟩
  · constructor
    · intro h u hu he
      rcases hfind : st.users.find? (fun v => v.email = email) with _ | w
      · rw [List.find?_eq_none] at hfind
        exact hfind u hu (by simp [he])
      · simp [signIn, hfind] at h
    · intro h
      have hnone : st.users.find? (fun v => v.email = email) = none := by
        rw [List.find?_eq_none]
        intro u hu
        simp [h u hu]
      simp [signIn, hnone]
  · rintro ⟨u, hu, he⟩
    have hfind : (st.users.find? (fun v => v.email = email)).isSome := by
      rw [List.find?_isSome]
      exact ⟨u, hu, by simp [he]⟩
    rcases hsome : st.users.find? (fun v => v.email = email) with _ | w
    · rw [hsome] at hfind; simp at hfind
    · exact ⟨(w, ⟨w, "mock_token_" ++ toString now, now + 24 * 60 * 60 * 1000⟩),
        by simp [signIn, hsome]⟩

/-- Witness for `signIn_email_only`: concrete failing and succeeding
sign-ins. -/
theorem signIn_email_only_witness :
    ((signIn 5 "nobody@x.com" "pw" { users := [s0.user], session := none }).1 =
        Except.error AuthError.InvalidCredentials) ∧
    ∃ r, (signIn 5 "a@x.com" "pw" { users := [s0.user], session := none }).1 =
        Except.ok r :=
  ⟨(signIn_email_only 5 "nobody@x.com" "pw" "pw"
      { users := [s0.user], session := none }).1.mpr (by decide),
   (signIn_email_only 5 "a@x.com" "pw" "pw"
      { users := [s0.user], session := none }).2.1 ⟨s0.user, by simp, rfl⟩⟩

/-- Claim C5: a successful sign-in at time `now` returns the matched
user together with a session whose user is that user and whose expiry
is `now` plus 24 hours (in milliseconds), and stores that session as
the sole session-slot content, overwriting whatever session was there
before, while leaving the user list unchanged. -/
theorem signIn_session_creation (now : Nat) (email pw : String) (st : Store)
    (u : MockUser) (h : st.users.find? (fun v => v.email = email) = some u) :
    ∃ s : MockSession,
      (signIn now email pw st).1 = Except.ok (u, s) ∧
      s.user = u ∧
      s.expires_at = now + 24 * 60 * 60 * 1000 ∧
      (signIn now email pw st).2 = { users := st.users, session := some s } := by
  refine ⟨{ user := u, access_token := "mock_token_" ++ toString now,
            expires_at := now + 24 * 60 * 60 * 1000 }, ?_, rfl, rfl, ?_⟩
  · simp [signIn, h]
  · simp [signIn, h]

/-- Witness for `signIn_session_creation` at a concrete store that
already holds an older session, which gets overwritten. -/
theorem signIn_session_creation_witness :
    ∃ s : MockSession,
      (signIn 40 "a@x.com" "whatever" { users := [s0.user], session := some s0 }).1 =
        Except.ok (s0.user, s) ∧
      s.user = s0.user ∧
      s.expires_at = 40 + 24 * 60 * 60 * 1000 ∧
      (signIn 40 "a@x.com" "whatever" { users := [s0.user], session := some s0 }).2 =
        { users := [s0.user], session := some s } :=
  signIn_session_creation 40 "a@x.com" "whatever"
    { users := [s0.user], session := some s0 } s0.user (by decide)

/-- Claim C9: a successful sign-up (email not yet stored) appends
exactly one record — the one it returns — at the end of the stored user
list, leaves every previously stored user in place, and does not touch
the session slot. -/
theorem signUp_frame (now : Nat) (rand nowIso email pw : String)
    (d : SignUpData) (st : Store)
    (h : ∀ u ∈ st.users, u.email ≠ email) :
    ∃ nu, (signUp now rand nowIso email pw d st).1 = Except.ok nu ∧
      (signUp now rand nowIso email pw d st).2 =
        { users := st.users ++ [nu], session := st.session } := by
  have hnone : st.users.find? (fun v => v.email = email) = none := by
    rw [List.find?_eq_none]
    intro u hu
    simp [h u hu]
  exact ⟨{ id := mkUserId now rand, email := email, first_name := d.first_name,
           last_name := d.last_name, role := jsOr d.role "employee",
           created_at := nowIso },
    by simp [signUp, hnone], by simp [signUp, hnone]⟩

/-- Witness for `signUp_frame` at a concrete non-empty store with a
live session. -/
theorem signUp_frame_witness :
    ∃ nu, (signUp 9 "r9" "t9" "new@x.com" "pw" ⟨"N", "U", none⟩
        { users := [s0.user], session := some s0 }).1 = Except.ok nu ∧
      (signUp 9 "r9" "t9" "new@x.com" "pw" ⟨"N", "U", none⟩
        { users := [s0.user], session := some s0 }).2 =
        { users := [s0.user] ++ [nu], session := some s0 } :=
  signUp_frame 9 "r9" "t9" "new@x.com" "pw" ⟨"N", "U", none⟩
    { users := [s0.user], session := some s0 } (by decide)

/-- Claim C10: `signIn` never modifies the stored user list, whatever
the outcome; on failure the entire store is unchanged, and on success
only the session slot differs from the pre-call store. -/
theorem signIn_frame (now : Nat) (email pw : String) (st : Store) :
    (signIn now email pw st).2.users = st.users ∧
    ((signIn now email pw st).1.isOk = false → (signIn now email pw st).2 = st) := by
  rcases hfind : st.users.find? (fun v => v.email = email) with _ | u
  · exact ⟨by simp [signIn, hfind], fun _ => by simp [signIn, hfind]⟩
  · refine ⟨by simp [signIn, hfind], fun hfail => ?_⟩
    simp [signIn, hfind, Except.isOk, Except.toBool] at hfail

/-- Witness for `signIn_frame` at a concrete failing input: the store
is returned untouched. -/
theorem signIn_frame_witness :
    (signIn 5 "nobody@x.com" "pw" { users := [s0.user], session := some s0 }).2 =
      { users := [s0.user], session := some s0 } :=
  (signIn_frame 5 "nobody@x.com" "pw"
    { users := [s0.user], session := some s0 }).2 (by decide)

/-- Claim C6: running `createDemoUsers` twice in succession from an
empty credential store — whatever timestamps and random suffixes the
two runs observe — leaves exactly 3 stored users, not 6, and their
emails are precisely the three fixed demo identities in creation
order. -/
theorem createDemoUsers_twice (e1 e2 : Nat → Env) :
    (createDemoUsers e2 (createDemoUsers e1 { users := [], session := none })).users.length = 3 ∧
    (createDemoUsers e2 (createDemoUsers e1 { users := [], session := none })).users.map
        MockUser.email =
      ["admin@demo.com", "manager@demo.com", "employee@demo.com"] := by
  simp [createDemoUsers, signUp, mkUserId]

/-- Claim C7, counterexample: the unrecognized key "toString" does not
yield the `other` entry's values — the member lookup finds the truthy
`Object.prototype.toString` function inherited by the `policies`
literal, the `||` keeps it, and the caller receives a value that is not
a policy entry at all. -/
theorem getLeavePolicy_prototype_counterexample :
    getLeavePolicy "toString" = PolicyLookup.inherited "toString" ∧
      ∀ p : LeavePolicy,
        PolicyLookup.inherited "toString" ≠ PolicyLookup.policy p :=
  ⟨by decide, fun p h => PolicyLookup.noConfusion h⟩

/-- Claim C7 (amended): `getLeavePolicy` is a pure lookup (it reads and
writes no store state in the embedding, mirroring the source method
that touches no storage): each of the five known keys maps to its own
table entry; an unrecognized key that does not name an
`Object.prototype` member yields the values of the `other` entry —
annual quota 0, max consecutive days 1, approval required; but an
unrecognized key naming an inherited `Object.prototype` member
(`toString`, `valueOf`, `hasOwnProperty`, ...) returns that truthy
inherited member instead of any policy entry. -/
theorem getLeavePolicy_lookup_spec :
    getLeavePolicy "sick" = PolicyLookup.policy ⟨10, 5, false⟩ ∧
    getLeavePolicy "vacation" = PolicyLookup.policy ⟨20, 14, true⟩ ∧
    getLeavePolicy "family_emergency" = PolicyLookup.policy ⟨5, 3, true⟩ ∧
    getLeavePolicy "personal" = PolicyLookup.policy ⟨5, 2, true⟩ ∧
    getLeavePolicy "other" = PolicyLookup.policy ⟨0, 1, true⟩ ∧
    ∀ k, k ≠ "sick" → k ≠ "vacation" → k ≠ "family_emergency" →
      k ≠ "personal" → k ≠ "other" →
      (k ∉ objectPrototypeMembers →
        getLeavePolicy k = PolicyLookup.policy ⟨0, 1, true⟩) ∧
      (k ∈ objectPrototypeMembers →
        getLeavePolicy k = PolicyLookup.inherited k) := by
  refine ⟨rfl, rfl, rfl, rfl, rfl,
    fun k h1 h2 h3 h4 h5 => ⟨fun hn => ?_, fun hm => ?_⟩⟩
  · simp [getLeavePolicy, h1, h2, h3, h4, h5, hn]
  · simp [getLeavePolicy, h1, h2, h3, h4, h5, hm]

/-- Witness for `getLeavePolicy_lookup_spec` at two concrete
unrecognized keys: a plain one falling back to the `other` entry, and a
prototype-member one returning the inherited member. -/
theorem getLeavePolicy_lookup_spec_witness :
    getLeavePolicy "sabbatical" = PolicyLookup.policy ⟨0, 1, true⟩ ∧
    getLeavePolicy "valueOf" = PolicyLookup.inherited "valueOf" :=
  ⟨(getLeavePolicy_lookup_spec.2.2.2.2.2 "sabbatical" (by decide) (by decide)
      (by decide) (by decide) (by decide)).1 (by decide),
   (getLeavePolicy_lookup_spec.2.2.2.2.2 "valueOf" (by decide) (by decide)
      (by decide) (by decide) (by decide)).2 (by decide)⟩

/-- Claim C8: when the remote profile fetch for an authenticated
primary-provider user fails, the synthesized profile takes its id from
the session user, its email from the session user whenever one is
present, and defaults each missing metadata field to first name "User",
last name "Name", and role "employee"; on a successful fetch the
fetched record is used verbatim. -/
theorem resolveProfile_fallback (fetched : Except String Profile) (u : SessionUser) :
    (∀ p, fetched = Except.ok p → resolveProfile fetched u = p) ∧
    (∀ err, fetched = Except.error err →
      (resolveProfile fetched u).id = u.id ∧
      (∀ e, u.email = some e → (resolveProfile fetched u).email = e) ∧
      (u.meta_first_name = none → (resolveProfile fetched u).first_name = "User") ∧
      (u.meta_last_name = none → (resolveProfile fetched u).last_name = "Name") ∧
      (u.meta_role = none → (resolveProfile fetched u).role = "employee")) := by
  refine ⟨fun p hp => by simp [resolveProfile, hp], fun err herr => ?_⟩
  subst herr
  refine ⟨rfl, fun e he => ?_,
    fun h => by simp [resolveProfile, fallbackProfile, jsOr, h],
    fun h => by simp [resolveProfile, fallbackProfile, jsOr, h],
    fun h => by simp [resolveProfile, fallbackProfile, jsOr, h]⟩
  by_cases h0 : e = "" <;>
    simp [resolveProfile, fallbackProfile, jsOr, he, h0]

/-- Witness for `resolveProfile_fallback` at a concrete failed fetch
with an email present and all metadata fields absent. -/
theorem resolveProfile_fallback_witness :
    (resolveProfile (Except.error "boom") ⟨"uid", some "e@x.com", none, none, none⟩).id =
        "uid" ∧
    (resolveProfile (Except.error "boom") ⟨"uid", some "e@x.com", none, none, none⟩).email =
        "e@x.com" ∧
    (resolveProfile (Except.error "boom") ⟨"uid", some "e@x.com", none, none, none⟩).first_name =
        "User" ∧
    (resolveProfile (Except.error "boom") ⟨"uid", some "e@x.com", none, none, none⟩).last_name =
        "Name" ∧
    (resolveProfile (Except.error "boom") ⟨"uid", some "e@x.com", none, none, none⟩).role =
        "employee" :=
  have h := (resolveProfile_fallback (Except.error "boom")
    ⟨"uid", some "e@x.com", none, none, none⟩).2 "boom" rfl
  ⟨h.1, h.2.1 "e@x.com" rfl, h.2.2.1 rfl, h.2.2.2.1 rfl, h.2.2.2.2 rfl⟩
